import Mathlib

set_option maxRecDepth 40000

/-! Verification of the extractive news summarizer in `summary.py`
(class `SummaryGenerator`).

The Python code is shallowly embedded in Lean:

* Strings are Lean `String`s; Python `len` on a string is the number of
  code points, i.e. `String.length`.  All character-level operations are
  defined over `String.toList` (the list of code points), matching
  Python's code-point semantics.  Character classes (`\w`, `\s`,
  `str.lower`) are modelled at their ASCII meaning.
* Python `float` scores are modelled as exact rationals `ℚ`.
* The two external library calls that the pipeline makes —
  `nltk.sent_tokenize` and `networkx.pagerank` — are not code of this
  repository; they are modelled as oracle parameters (`tok`, `pagerank`).
  Each returns `Except Unit _` so that a raised exception can be
  represented; the repository's own `try/except` handling around them is
  embedded faithfully.
* `hash(text[:1000])` used as the cache dictionary key is modelled by the
  prefix string `text[:1000]` itself (an injective stand-in for the hash).
* The mutable `self.cache` dictionary is an association list threaded
  through `generateSummary` as explicit state; insertion is modelled by
  consing, lookup by first match, which agrees with dictionary overwrite
  semantics.
-/

/-- ASCII model of Python's regex class `\w` (word character). -/
def isPyWordChar (c : Char) : Bool := c.isAlphanum || c = '_'

/-- ASCII model of Python's regex class `\s` (whitespace). -/
def isPySpace (c : Char) : Bool :=
  c = ' ' || c = '\t' || c = '\n' || c = '\r' || c.toNat = 11 || c.toNat = 12

/-- Model of Python `str.lower()` (ASCII letters). -/
def lowerStr (s : String) : String := String.mk (s.toList.map Char.toLower)

/-- Model of Python `' '.join(parts)`. -/
def joinSp (parts : List String) : String :=
  String.mk (List.intercalate [' '] (parts.map String.toList))

/-- The cache key `text[:1000]` of `generate_summary` (summary.py line 106);
the Python code hashes this prefix, the hash is modelled by the prefix
itself. -/
def keyOf (text : String) : String := String.mk (text.toList.take 1000)

/-- `SummaryGenerator._preprocess_text` (summary.py lines 34-38):
`re.sub(r'[^\w\s\.]', '', text).lower()` — drop every character that is
not a word character, whitespace or a period, then lowercase. -/
def preprocessText (text : String) : String :=
  lowerStr (String.mk (text.toList.filter (fun c => isPyWordChar c || isPySpace c || c = '.')))

/-- Helper for `simpleSplit`: scans the character list; when a terminal
punctuation character is immediately followed by whitespace, the current
piece is closed after the punctuation character and the maximal following
whitespace run is consumed (the semantics of one match of
`re.split(r'(?<=[.!?])\s+', _)`).  `acc` holds the current piece reversed;
`skip` is true while inside the whitespace run of a match (then `acc` is
empty). -/
def simpleSplitAux : List Char → List Char → Bool → List (List Char)
  | [], acc, _ => [acc.reverse]
  | c :: rest, acc, skip =>
    if skip && isPySpace c then simpleSplitAux rest acc true
    else if (c = '.' || c = '!' || c = '?') &&
        (match rest with | r :: _ => isPySpace r | [] => false) then
      (acc.reverse ++ [c]) :: simpleSplitAux rest [] true
    else
      simpleSplitAux rest (c :: acc) false

/-- The simple sentence split `re.split(r'(?<=[.!?])\s+', text)` used both
as the `LookupError` fallback of `_tokenize_sentences` (summary.py line 46)
and in the exception fallback of `generate_summary` (line 161). -/
def simpleSplit (text : String) : List String :=
  (simpleSplitAux text.toList [] false).map String.mk

/-- Helper for `findWords`: collects maximal runs of word characters
(`re.findall(r'\w+', s)`).  `acc` holds the current run reversed. -/
def findWordsAux : List Char → List Char → List String
  | [], acc => if acc.isEmpty then [] else [String.mk acc.reverse]
  | c :: rest, acc =>
    if isPyWordChar c then findWordsAux rest (c :: acc)
    else if acc.isEmpty then findWordsAux rest []
    else String.mk acc.reverse :: findWordsAux rest []

/-- `re.findall(r'\w+', s)` — the word tokens of a sentence
(summary.py lines 84-87). -/
def findWords (s : String) : List String := findWordsAux s.toList []

/-- The filter of the set comprehensions in `_sentence_similarity`
(summary.py lines 84-87): keep `word` when `word.lower()` is not a stop
word and `len(word) > 1`. -/
def keepWord (stop : List String) (w : String) : Bool :=
  !(stop.contains (lowerStr w)) && decide (1 < w.length)

/-- The set `set(word.lower() for word in re.findall(r'\w+', s)
if word.lower() not in self.stop_words and len(word) > 1)` built by
`_sentence_similarity` for each argument sentence. -/
def filteredWords (stop : List String) (s : String) : Finset String :=
  (((findWords s).filter (keepWord stop)).map lowerStr).toFinset

/-- `SummaryGenerator._sentence_similarity` (summary.py lines 81-101):
Jaccard coefficient of the two filtered word sets, with the two guard
returns of `0` for an empty operand set and for an empty union. -/
def sentenceSimilarity (stop : List String) (sent1 sent2 : String) : ℚ :=
  if filteredWords stop sent1 = ∅ ∨ filteredWords stop sent2 = ∅ then 0
  else if filteredWords stop sent1 ∪ filteredWords stop sent2 = ∅ then 0
  else ((filteredWords stop sent1 ∩ filteredWords stop sent2).card : ℚ) /
    ((filteredWords stop sent1 ∪ filteredWords stop sent2).card : ℚ)

/-- `SummaryGenerator._create_similarity_matrix` (summary.py lines 48-79)
as a row-major list of rows.  For at most 100 sentences the code fills the
upper triangle with `_sentence_similarity(sentences[i], sentences[j])` and
mirrors the value to the lower triangle, leaving the diagonal at `0`; this
net effect is written here as a closed form over `(i, j)`.  For more than
100 sentences the code fills, for each row `i`, exactly the entries `j ≠ i`
with `max 0 (i-50) ≤ j < min len (i+51)` with the directly computed
similarity, leaving everything else at `0`. -/
def createSimilarityMatrix (stop : List String) (sentences : List String) : List (List ℚ) :=
  if sentences.length ≤ 100 then
    (List.range sentences.length).map (fun i =>
      (List.range sentences.length).map (fun j =>
        if i < j then sentenceSimilarity stop (sentences.getD i "") (sentences.getD j "")
        else if j < i then sentenceSimilarity stop (sentences.getD j "") (sentences.getD i "")
        else 0))
  else
    (List.range sentences.length).map (fun i =>
      (List.range sentences.length).map (fun j =>
        if i ≠ j ∧ i - 50 ≤ j ∧ j < min sentences.length (i + 51) then
          sentenceSimilarity stop (sentences.getD i "") (sentences.getD j "")
        else 0))

/-- Entry `(i, j)` of a row-major matrix (out-of-range reads default to 0;
all claimed reads are in range). -/
def matrixEntry (M : List (List ℚ)) (i j : Nat) : ℚ := (M.getD i []).getD j 0

/-- Python `int()` applied to an exact rational: truncation toward zero
(summary.py line 145 applies `int` to `len(sentences) * ratio`). -/
def pyInt (q : ℚ) : ℤ := Int.tdiv q.num q.den

/-- `num_sentences = min(max(min_sentences, int(len(sentences) * ratio)),
max_sentences)` (summary.py line 145). -/
def numSentences (n : Nat) (r : ℚ) (mn mx : Nat) : Nat :=
  (min (max (mn : ℤ) (pyInt ((n : ℚ) * r))) (mx : ℤ)).toNat

/-- Python slice `l[::n]`: the elements at indices divisible by `n`. -/
def everyNth (n : Nat) (l : List α) : List α :=
  (l.enum.filter (fun p => p.1 % n == 0)).map (fun p => p.2)

/-- The sentence downsampling of `generate_summary` (summary.py lines
128-135): texts of more than 200 sentences keep every other sentence
(up to 500 sentences) or every fifth sentence (above 500). -/
def sampleSentences (sentences : List String) : List String :=
  if 200 < sentences.length then
    if sentences.length ≤ 500 then everyNth 2 sentences
    else everyNth 5 sentences
  else sentences

/-- The argument passed to `_tokenize_sentences` on summary.py line 122:
`processed_text if len(text) > 10000 else text`, where `processed_text`
itself is `text` for long texts and `_preprocess_text(text)` otherwise
(lines 115-119). -/
def tokenizedText (text : String) : String :=
  let processed := if 10000 < text.length then text else preprocessText text
  if 10000 < text.length then processed else text

/-- Descending-order comparison used by
`sorted(((scores[i], i, s) ...), reverse=True)` (summary.py line 146):
`a` precedes `b` iff the tuple of `b` is lexicographically at most the
tuple of `a` (Python compares `(score, index, sentence)` tuples
lexicographically; the index components are always distinct). -/
def rankKey (x : ℚ × Nat × String) : Lex (ℚ × Lex (Nat × String)) :=
  toLex (x.1, toLex (x.2.1, x.2.2))

def rankDescends (a b : ℚ × Nat × String) : Prop := rankKey b ≤ rankKey a

instance : DecidableRel rankDescends := fun a b =>
  inferInstanceAs (Decidable (rankKey b ≤ rankKey a))

instance : IsTotal (ℚ × Nat × String) rankDescends :=
  ⟨fun a b => le_total (rankKey b) (rankKey a)⟩

instance : IsTrans (ℚ × Nat × String) rankDescends :=
  ⟨fun _ _ _ h1 h2 => le_trans h2 h1⟩

/-- Key comparison of `sorted(..., key=lambda x: x[1])` (summary.py line
149): sort the selected triples by original sentence position. -/
def posLe (a b : ℚ × Nat × String) : Prop := a.2.1 ≤ b.2.1

instance : DecidableRel posLe := fun a b =>
  inferInstanceAs (Decidable (a.2.1 ≤ b.2.1))

instance : IsTotal (ℚ × Nat × String) posLe := ⟨fun a b => Nat.le_total a.2.1 b.2.1⟩

instance : IsTrans (ℚ × Nat × String) posLe := ⟨fun _ _ _ => Nat.le_trans⟩

/-- The body of the `try:` block of `generate_summary` (summary.py lines
114-152), parameterised by the two external calls: `tok` models
`_tokenize_sentences` (NLTK `sent_tokenize`) and `pagerank` models
`nx.pagerank` on the graph of the similarity matrix (its result dict is a
score function on node indices).  An `Except.error` of either oracle
models a raised exception, propagated to the `except` handler.
`Except.ok none` models the early `return text` for 3 or fewer sentences
(lines 124-126, no caching); `Except.ok (some (summary, sentences,
selection))` carries the joined summary together with the (possibly
downsampled) sentence list and the position-sorted selected triples of
lines 144-152. -/
def generateSummaryCore (tok : String → Except Unit (List String))
    (pagerank : List (List ℚ) → Except Unit (Nat → ℚ))
    (stop : List String) (text : String) (r : ℚ) (mn mx : Nat) :
    Except Unit (Option (String × List String × List (ℚ × Nat × String))) :=
  match tok (tokenizedText text) with
  | Except.error e => Except.error e
  | Except.ok sentences0 =>
    if sentences0.length ≤ 3 then Except.ok none
    else
      let sentences := sampleSentences sentences0
      let M := createSimilarityMatrix stop sentences
      match pagerank M with
      | Except.error e => Except.error e
      | Except.ok scores =>
        let num := numSentences sentences.length r mn mx
        let ranked := List.insertionSort rankDescends
          (sentences.enum.map (fun p => (scores p.1, p.1, p.2)))
        let summarySel := List.insertionSort posLe (ranked.take num)
        let summary := joinSp (summarySel.map (fun x => x.2.2))
        Except.ok (some (summary, sentences, summarySel))

/-- The exception fallback of `generate_summary` (summary.py lines
158-162): `' '.join(re.split(r'(?<=[.!?])\s+', text)[:min(3, len(...))])`. -/
def fallbackSummary (text : String) : String :=
  let simple := simpleSplit text
  joinSp (simple.take (min 3 simple.length))

/-- The mutable state of a `SummaryGenerator` instance: `self.stop_words`
and `self.cache` (summary.py lines 27-32). -/
structure GenState where
  stop_words : List String
  cache : List (String × String)
deriving DecidableEq

/-- Which return path of `generate_summary` produced the result; used to
state cache/recomputation properties.  `cacheHit` is the return on line
108, `shortInput` line 112, `fewSentences` line 126, `summarized` line
156, `fallback` line 162. -/
inductive SummaryPath where
  | cacheHit
  | shortInput
  | fewSentences
  | summarized
  | fallback
deriving DecidableEq

/-- Instrumented result of one `generate_summary` call: the returned
string, the generator state after the call, the return path taken, and
(for the `summarized` path) the downsampled sentence list and the selected
triples. -/
structure SummaryTrace where
  out : String
  state : GenState
  path : SummaryPath
  sampled : List String
  selected : List (ℚ × Nat × String)
deriving DecidableEq

/-- `SummaryGenerator.generate_summary` (summary.py lines 103-162) with
instrumentation.  Control flow: cache lookup on the key `text[:1000]`
(lines 105-108), the degenerate-input return for empty/short text (lines
110-112), then the `try:` pipeline (`generateSummaryCore`); a computed
summary is stored in the cache (line 155), the other paths leave the
state unchanged; an exception yields the simple-split fallback (lines
158-162). -/
def generateSummaryT (tok : String → Except Unit (List String))
    (pagerank : List (List ℚ) → Except Unit (Nat → ℚ))
    (g : GenState) (text : String) (r : ℚ) (mn mx : Nat) : SummaryTrace :=
  match g.cache.lookup (keyOf text) with
  | some s => ⟨s, g, SummaryPath.cacheHit, [], []⟩
  | none =>
    if text = "" ∨ text.length < 100 then ⟨text, g, SummaryPath.shortInput, [], []⟩
    else
      match generateSummaryCore tok pagerank g.stop_words text r mn mx with
      | Except.ok none => ⟨text, g, SummaryPath.fewSentences, [], []⟩
      | Except.ok (some (s, sam, sel)) =>
          ⟨s, ⟨g.stop_words, (keyOf text, s) :: g.cache⟩, SummaryPath.summarized, sam, sel⟩
      | Except.error _ => ⟨fallbackSummary text, g, SummaryPath.fallback, [], []⟩

/-- `generate_summary` as seen by callers: the returned string together
with the updated generator state. -/
def generateSummary (tok : String → Except Unit (List String))
    (pagerank : List (List ℚ) → Except Unit (Nat → ℚ))
    (g : GenState) (text : String) (r : ℚ) (mn mx : Nat) : String × GenState :=
  let t := generateSummaryT tok pagerank g text r mn mx
  (t.out, t.state)

/-- The stop-word fallback list of `SummaryGenerator.__init__`
(summary.py line 30), used when the NLTK corpus is unavailable. -/
def fallbackStopWords : List String :=
  ["the", "and", "a", "to", "of", "in", "is", "it", "that"]

/-- Strict order on sentence positions ("document order"). -/
def posStrict (a b : Nat) : Prop := a < b

/-! Concrete oracle instantiations and inputs used by the witness and
counterexample theorems. -/

/-- Tokenizer oracle for the situation in which the NLTK `punkt` data is
unavailable: `_tokenize_sentences` catches the `LookupError` and uses the
simple regex split (summary.py lines 40-46). -/
def tokSimple : String → Except Unit (List String) := fun s => Except.ok (simpleSplit s)

/-- Tokenizer oracle raising an exception on every input. -/
def tokRaise : String → Except Unit (List String) := fun _ => Except.error ()

/-- PageRank oracle assigning score 0 to every node: a legitimate value of
the abstract `nx.pagerank` parameter (only relative order of scores is ever
used). -/
def prZero : List (List ℚ) → Except Unit (Nat → ℚ) := fun _ => Except.ok (fun _ => 0)

/-- PageRank oracle raising an exception (e.g.
`PowerIterationFailedConvergence`) on every input. -/
def prRaise : List (List ℚ) → Except Unit (Nat → ℚ) := fun _ => Except.error ()

/-- A freshly constructed generator: empty cache (stop words irrelevant
for the properties evaluated on it). -/
def g0 : GenState := ⟨[], []⟩

/-- A 123-character, 5-sentence input. -/
def text5 : String :=
  "alpha beta gamma delta one. epsilon zeta eta theta two. iota kappa lambda three. mu nu xi omicron four. rho sigma tau five."

/-- A 107-character, 12-sentence input. -/
def text12 : String :=
  "aaa bbb. aaa bbb. aaa bbb. aaa bbb. aaa bbb. aaa bbb. aaa bbb. aaa bbb. aaa bbb. aaa bbb. aaa bbb. aaa bbb."

/-- A 120-character single-sentence input (no terminal punctuation). -/
def textNoPunct : String := String.mk (List.replicate 120 'x')

/-- 990 filler characters without punctuation. -/
def padX : String := String.mk (List.replicate 990 'x')

/-- A 1005-character text whose sentence breaks all lie within its last
dozen characters: 4 sentences under the simple split. -/
def tA : String := padX ++ " aa. bb. cc. dd"

/-- A 1100-character text sharing the first 1000 characters with `tA` but
continuing without further punctuation: 3 sentences under the simple
split. -/
def tB : String := String.mk (tA.toList.take 1000) ++ String.mk (List.replicate 100 'w')

/-- 101 identical short sentences (banded-matrix regime). -/
def ss101 : List String := List.replicate 101 "ab cd."

/-- A 124-character input containing upper-case letters and punctuation
that preprocessing would remove. -/
def textMixed : String :=
  "The Quick Brown Fox, jumped over the lazy dog! The quick brown fox jumped again. And again, and again, and again it jumped."

/-! Helper lemmas. -/

theorem sentenceSimilarity_nonneg (stop : List String) (a b : String) :
    0 ≤ sentenceSimilarity stop a b := by
  unfold sentenceSimilarity
  split
  · exact le_refl 0
  · split
    · exact le_refl 0
    · positivity

theorem sentenceSimilarity_eq_zero_of_empty (stop : List String) (a b : String)
    (h : filteredWords stop a = ∅ ∨ filteredWords stop b = ∅) :
    sentenceSimilarity stop a b = 0 := by
  unfold sentenceSimilarity
  rw [if_pos h]

theorem sentenceSimilarity_comm (stop : List String) (a b : String) :
    sentenceSimilarity stop a b = sentenceSimilarity stop b a := by
  by_cases h1 : filteredWords stop a = ∅ ∨ filteredWords stop b = ∅
  · rw [sentenceSimilarity_eq_zero_of_empty stop a b h1,
      sentenceSimilarity_eq_zero_of_empty stop b a (Or.symm h1)]
  · have h2 : ¬(filteredWords stop b = ∅ ∨ filteredWords stop a = ∅) := fun h => h1 (Or.symm h)
    unfold sentenceSimilarity
    rw [if_neg h1, if_neg h2]
    simp only [Finset.union_comm (filteredWords stop a), Finset.inter_comm (filteredWords stop a)]

theorem sentenceSimilarity_le_one (stop : List String) (a b : String) :
    sentenceSimilarity stop a b ≤ 1 := by
  unfold sentenceSimilarity
  split
  · exact zero_le_one
  · split
    · exact zero_le_one
    · rename_i hne hu
      have hpos : 0 < ((filteredWords stop a ∪ filteredWords stop b).card : ℚ) := by
        have : (filteredWords stop a ∪ filteredWords stop b).Nonempty :=
          Finset.nonempty_iff_ne_empty.mpr hu
        exact_mod_cast Finset.card_pos.mpr this
      rw [div_le_one hpos]
      exact_mod_cast Finset.card_le_card (Finset.inter_subset_union)

theorem getD_range_map {β : Type} (n : Nat) (f : Nat → β) (d : β) (i : Nat) (h : i < n) :
    ((List.range n).map f).getD i d = f i := by
  rw [List.getD_eq_getElem?_getD, List.getElem?_map, List.getElem?_range h]
  rfl

theorem take_min_three {α : Type} (l : List α) : l.take (min 3 l.length) = l.take 3 := by
  rcases Nat.le_total 3 l.length with h | h
  · rw [min_eq_left h]
  · rw [min_eq_right h, List.take_length]
    exact (List.take_of_length_le h).symm

theorem everyNth_sublist {α : Type} (n : Nat) (l : List α) : (everyNth n l).Sublist l := by
  unfold everyNth
  have h1 : ((l.enum.filter (fun p => p.1 % n == 0)).map (fun p => p.2)).Sublist
      (l.enum.map (fun p : Nat × α => p.2)) :=
    List.Sublist.map (fun p => p.2) (List.filter_sublist l.enum)
  have h2 : l.enum.map (fun p : Nat × α => p.2) = l := List.enum_map_snd l
  rw [h2] at h1
  exact h1

/-- Downsampling keeps an (order-preserving) sublist of the tokenized
sentence list. -/
theorem sampleSentences_sublist (l : List String) : (sampleSentences l).Sublist l := by
  unfold sampleSentences
  split
  · split
    · exact everyNth_sublist 2 l
    · exact everyNth_sublist 5 l
  · exact List.Sublist.refl l

theorem generateSummaryT_cacheHit (tok : String → Except Unit (List String))
    (pagerank : List (List ℚ) → Except Unit (Nat → ℚ)) (g : GenState) (text : String)
    (r : ℚ) (mn mx : Nat) (s : String)
    (h : g.cache.lookup (keyOf text) = some s) :
    generateSummaryT tok pagerank g text r mn mx = ⟨s, g, SummaryPath.cacheHit, [], []⟩ := by
  unfold generateSummaryT
  rw [h]

theorem generateSummaryT_short (tok : String → Except Unit (List String))
    (pagerank : List (List ℚ) → Except Unit (Nat → ℚ)) (g : GenState) (text : String)
    (r : ℚ) (mn mx : Nat)
    (h1 : g.cache.lookup (keyOf text) = none)
    (h2 : text = "" ∨ text.length < 100) :
    generateSummaryT tok pagerank g text r mn mx = ⟨text, g, SummaryPath.shortInput, [], []⟩ := by
  unfold generateSummaryT
  rw [h1]
  simp only [if_pos h2]

theorem generateSummaryT_few (tok : String → Except Unit (List String))
    (pagerank : List (List ℚ) → Except Unit (Nat → ℚ)) (g : GenState) (text : String)
    (r : ℚ) (mn mx : Nat)
    (h1 : g.cache.lookup (keyOf text) = none)
    (h2 : ¬(text = "" ∨ text.length < 100))
    (h3 : generateSummaryCore tok pagerank g.stop_words text r mn mx = Except.ok none) :
    generateSummaryT tok pagerank g text r mn mx = ⟨text, g, SummaryPath.fewSentences, [], []⟩ := by
  unfold generateSummaryT
  rw [h1]
  simp only [if_neg h2]
  rw [h3]

theorem generateSummaryT_summarized (tok : String → Except Unit (List String))
    (pagerank : List (List ℚ) → Except Unit (Nat → ℚ)) (g : GenState) (text : String)
    (r : ℚ) (mn mx : Nat) (s : String) (sam : List String) (sel : List (ℚ × Nat × String))
    (h1 : g.cache.lookup (keyOf text) = none)
    (h2 : ¬(text = "" ∨ text.length < 100))
    (h3 : generateSummaryCore tok pagerank g.stop_words text r mn mx =
      Except.ok (some (s, sam, sel))) :
    generateSummaryT tok pagerank g text r mn mx =
      ⟨s, ⟨g.stop_words, (keyOf text, s) :: g.cache⟩, SummaryPath.summarized, sam, sel⟩ := by
  unfold generateSummaryT
  rw [h1]
  simp only [if_neg h2]
  rw [h3]

theorem generateSummaryT_fallback (tok : String → Except Unit (List String))
    (pagerank : List (List ℚ) → Except Unit (Nat → ℚ)) (g : GenState) (text : String)
    (r : ℚ) (mn mx : Nat)
    (h1 : g.cache.lookup (keyOf text) = none)
    (h2 : ¬(text = "" ∨ text.length < 100))
    (h3 : generateSummaryCore tok pagerank g.stop_words text r mn mx = Except.error ()) :
    generateSummaryT tok pagerank g text r mn mx =
      ⟨fallbackSummary text, g, SummaryPath.fallback, [], []⟩ := by
  unfold generateSummaryT
  rw [h1]
  simp only [if_neg h2]
  rw [h3]

/-- Inversion: if a call took the `summarized` path, the cache lookup
missed, the input was not short, and the pipeline produced the recorded
summary, sentence list and selection; the state gained exactly the new
cache entry. -/
theorem generateSummaryT_summarized_inv (tok : String → Except Unit (List String))
    (pagerank : List (List ℚ) → Except Unit (Nat → ℚ)) (g : GenState) (text : String)
    (r : ℚ) (mn mx : Nat)
    (h : (generateSummaryT tok pagerank g text r mn mx).path = SummaryPath.summarized) :
    g.cache.lookup (keyOf text) = none ∧ ¬(text = "" ∨ text.length < 100) ∧
    ∃ s sam sel,
      generateSummaryCore tok pagerank g.stop_words text r mn mx =
        Except.ok (some (s, sam, sel)) ∧
      generateSummaryT tok pagerank g text r mn mx =
        ⟨s, ⟨g.stop_words, (keyOf text, s) :: g.cache⟩, SummaryPath.summarized, sam, sel⟩ := by
  cases hl : g.cache.lookup (keyOf text) with
  | some s =>
    rw [generateSummaryT_cacheHit tok pagerank g text r mn mx s hl] at h
    exact absurd h (by simp)
  | none =>
    by_cases hshort : text = "" ∨ text.length < 100
    · rw [generateSummaryT_short tok pagerank g text r mn mx hl hshort] at h
      exact absurd h (by simp)
    · cases hc : generateSummaryCore tok pagerank g.stop_words text r mn mx with
      | error e =>
        cases e
        rw [generateSummaryT_fallback tok pagerank g text r mn mx hl hshort hc] at h
        exact absurd h (by simp)
      | ok o =>
        cases o with
        | none =>
          rw [generateSummaryT_few tok pagerank g text r mn mx hl hshort hc] at h
          exact absurd h (by simp)
        | some trip =>
          obtain ⟨s, sam, sel⟩ := trip
          exact ⟨rfl, hshort, s, sam, sel, rfl,
            generateSummaryT_summarized tok pagerank g text r mn mx s sam sel hl hshort hc⟩

/-- Inversion for the pipeline body: a successful summary determines the
tokenizer output (more than 3 sentences), the downsampled list, the
PageRank scores, the selection and the joined summary. -/
theorem generateSummaryCore_ok_some (tok : String → Except Unit (List String))
    (pagerank : List (List ℚ) → Except Unit (Nat → ℚ)) (stop : List String) (text : String)
    (r : ℚ) (mn mx : Nat) (s : String) (sam : List String) (sel : List (ℚ × Nat × String))
    (h : generateSummaryCore tok pagerank stop text r mn mx = Except.ok (some (s, sam, sel))) :
    ∃ ss0 scores,
      tok (tokenizedText text) = Except.ok ss0 ∧ ¬ ss0.length ≤ 3 ∧
      sam = sampleSentences ss0 ∧
      pagerank (createSimilarityMatrix stop (sampleSentences ss0)) = Except.ok scores ∧
      sel = List.insertionSort posLe
        ((List.insertionSort rankDescends
          ((sampleSentences ss0).enum.map (fun p => (scores p.1, p.1, p.2)))).take
            (numSentences (sampleSentences ss0).length r mn mx)) ∧
      s = joinSp (sel.map (fun x => x.2.2)) := by
  unfold generateSummaryCore at h
  cases htok : tok (tokenizedText text) with
  | error e => simp only [htok] at h; exact absurd h (by simp)
  | ok ss0 =>
    simp only [htok] at h
    by_cases h3 : ss0.length ≤ 3
    · simp only [if_pos h3] at h; exact absurd h (by simp)
    · simp only [if_neg h3] at h
      cases hpr : pagerank (createSimilarityMatrix stop (sampleSentences ss0)) with
      | error e => simp only [hpr] at h; exact absurd h (by simp)
      | ok scores =>
        simp only [hpr, Except.ok.injEq, Option.some.injEq, Prod.mk.injEq] at h
        obtain ⟨hs, hsam, hsel⟩ := h
        refine ⟨ss0, scores, rfl, h3, hsam.symm, hpr, hsel.symm, ?_⟩
        rw [← hsel]
        exact hs.symm

theorem matrixEntry_small (stop : List String) (ss : List String)
    (h : ss.length ≤ 100) (i j : Nat) (hi : i < ss.length) (hj : j < ss.length) :
    matrixEntry (createSimilarityMatrix stop ss) i j =
      (if i < j then sentenceSimilarity stop (ss.getD i "") (ss.getD j "")
       else if j < i then sentenceSimilarity stop (ss.getD j "") (ss.getD i "") else 0) := by
  unfold createSimilarityMatrix matrixEntry
  rw [if_pos h, getD_range_map ss.length _ [] i hi, getD_range_map ss.length _ 0 j hj]

theorem matrixEntry_large (stop : List String) (ss : List String)
    (h : ¬ ss.length ≤ 100) (i j : Nat) (hi : i < ss.length) (hj : j < ss.length) :
    matrixEntry (createSimilarityMatrix stop ss) i j =
      (if i ≠ j ∧ i - 50 ≤ j ∧ j < min ss.length (i + 51) then
        sentenceSimilarity stop (ss.getD i "") (ss.getD j "")
       else 0) := by
  unfold createSimilarityMatrix matrixEntry
  rw [if_neg h, getD_range_map ss.length _ [] i hi, getD_range_map ss.length _ 0 j hj]

theorem everyNth_length {α : Type} (n : Nat) (l : List α) :
    (everyNth n l).length = ((List.range l.length).filter (fun i => i % n == 0)).length := by
  unfold everyNth
  rw [List.length_map]
  have hcomp : (fun p : Nat × α => p.1 % n == 0) = (fun i => i % n == 0) ∘ Prod.fst := rfl
  rw [hcomp, ← List.length_map (List.filter ((fun i => i % n == 0) ∘ Prod.fst) l.enum) Prod.fst,
    ← List.filter_map, List.enum_map_fst]

theorem sampleSentences_length_gt (ss : List String) (h : 3 < ss.length) :
    3 < (sampleSentences ss).length := by
  unfold sampleSentences
  split
  · rename_i h200
    split
    · rename_i h500
      rw [everyNth_length]
      have hsub : (List.range 201).Sublist (List.range ss.length) :=
        List.range_sublist.mpr (by omega)
      have hlen := (hsub.filter (fun i => i % 2 == 0)).length_le
      have h201 : ((List.range 201).filter (fun i => i % 2 == 0)).length = 101 := by decide
      omega
    · rename_i h500
      rw [everyNth_length]
      have hsub : (List.range 501).Sublist (List.range ss.length) :=
        List.range_sublist.mpr (by omega)
      have hlen := (hsub.filter (fun i => i % 5 == 0)).length_le
      have h501 : ((List.range 501).filter (fun i => i % 5 == 0)).length = 101 := by decide
      omega
  · exact h

theorem numSentences_le_defaults (n : Nat) (h : 3 < n) :
    numSentences n (3/10) 3 7 ≤ n := by
  rcases Nat.lt_or_ge n 7 with h7 | h7
  · interval_cases n <;> with_unfolding_all decide
  · unfold numSentences
    have h1 : min (max (3:ℤ) (pyInt ((n:ℚ) * (3/10)))) 7 ≤ 7 := min_le_right _ _
    have h2 := Int.toNat_le_toNat h1
    have h3 : ((7:ℤ)).toNat = 7 := rfl
    omega

/-- Structure of the selection built on summary.py lines 145-149: its
length is `min num_sentences len(sentences)`, its sentence positions are
strictly increasing (document order), and each selected triple carries the
sentence stored at its position. -/
theorem selection_facts (sam : List String) (scores : Nat → ℚ) (num : Nat)
    (sel : List (ℚ × Nat × String))
    (hsel : sel = List.insertionSort posLe
      ((List.insertionSort rankDescends
        (sam.enum.map (fun p => (scores p.1, p.1, p.2)))).take num)) :
    sel.length = min num sam.length ∧
    List.Pairwise posStrict (sel.map (fun x => x.2.1)) ∧
    ∀ x ∈ sel, sam.getD x.2.1 "" = x.2.2 := by
  subst hsel
  have hperm2 := List.perm_insertionSort posLe
    ((List.insertionSort rankDescends
      (sam.enum.map (fun p => (scores p.1, p.1, p.2)))).take num)
  have hperm1 := List.perm_insertionSort rankDescends
    (sam.enum.map (fun p => (scores p.1, p.1, p.2)))
  refine ⟨?_, ?_, ?_⟩
  · rw [hperm2.length_eq, List.length_take, hperm1.length_eq, List.length_map,
      List.enum_length]
  · have hsorted := List.sorted_insertionSort posLe
      ((List.insertionSort rankDescends
        (sam.enum.map (fun p => (scores p.1, p.1, p.2)))).take num)
    have hmapLe : List.Pairwise (fun a b : Nat => a ≤ b)
        ((List.insertionSort posLe
          ((List.insertionSort rankDescends
            (sam.enum.map (fun p => (scores p.1, p.1, p.2)))).take num)).map
          (fun x => x.2.1)) :=
      List.pairwise_map.mpr hsorted
    have hnodupTr : ((sam.enum.map (fun p => (scores p.1, p.1, p.2))).map
        (fun x => x.2.1)).Nodup := by
      have heq : (sam.enum.map (fun p => (scores p.1, p.1, p.2))).map
          (fun x : ℚ × Nat × String => x.2.1) = sam.enum.map Prod.fst := by
        rw [List.map_map]; rfl
      rw [heq]
      exact List.nodup_enum_map_fst sam
    have hnodupR := ((hperm1.map (fun x : ℚ × Nat × String => x.2.1)).nodup_iff).mpr hnodupTr
    have hnodupT := List.Nodup.sublist
      (List.Sublist.map (fun x : ℚ × Nat × String => x.2.1)
        (List.take_sublist num _)) hnodupR
    have hnodupS : (( List.insertionSort posLe
        ((List.insertionSort rankDescends
          (sam.enum.map (fun p => (scores p.1, p.1, p.2)))).take num)).map
        (fun x => x.2.1)).Nodup :=
      ((hperm2.map (fun x : ℚ × Nat × String => x.2.1)).nodup_iff).mpr hnodupT
    have hand := List.Pairwise.and hmapLe hnodupS
    exact hand.imp (fun hab => lt_of_le_of_ne hab.1 hab.2)
  · intro x hx
    have hx1 := hperm2.mem_iff.mp hx
    have hx2 := List.take_subset num _ hx1
    have hx3 := hperm1.mem_iff.mp hx2
    obtain ⟨p, hp, hfp⟩ := List.mem_map.mp hx3
    have hidx : x.2.1 = p.1 := by rw [← hfp]
    have hval : x.2.2 = p.2 := by rw [← hfp]
    have hget := List.mem_enum_iff_getElem?.mp hp
    rw [hidx, hval, List.getD_eq_getElem?_getD, hget]
    rfl

/-- C6: for all sentence strings `a` and `b`, `_sentence_similarity` is
the Jaccard coefficient |intersection|/|union| of the two sets of
lowercase word tokens of length > 1 excluding stop words; it always lies
in [0, 1] and equals exactly 0 whenever either filtered token set is
empty. -/
theorem sentence_similarity_jaccard_bounds (stop : List String) (a b : String) :
    0 ≤ sentenceSimilarity stop a b ∧ sentenceSimilarity stop a b ≤ 1 ∧
    ((filteredWords stop a = ∅ ∨ filteredWords stop b = ∅) →
      sentenceSimilarity stop a b = 0) ∧
    (filteredWords stop a ≠ ∅ → filteredWords stop b ≠ ∅ →
      sentenceSimilarity stop a b =
        ((filteredWords stop a ∩ filteredWords stop b).card : ℚ) /
        ((filteredWords stop a ∪ filteredWords stop b).card : ℚ)) := by
  refine ⟨sentenceSimilarity_nonneg stop a b, sentenceSimilarity_le_one stop a b,
    sentenceSimilarity_eq_zero_of_empty stop a b, ?_⟩
  intro ha hb
  unfold sentenceSimilarity
  rw [if_neg (by tauto), if_neg (fun hu => ha (Finset.union_eq_empty.mp hu).1)]

/-- Witness for C6 at concrete sentences with the fallback stop-word
list: both sets nonempty, so the Jaccard formula applies. -/
theorem sentence_similarity_jaccard_bounds_witness :
    0 ≤ sentenceSimilarity fallbackStopWords "The cat sat on the mat" "A cat ran to the mat" ∧
    sentenceSimilarity fallbackStopWords "The cat sat on the mat" "A cat ran to the mat" ≤ 1 ∧
    sentenceSimilarity fallbackStopWords "The cat sat on the mat" "A cat ran to the mat" =
      ((filteredWords fallbackStopWords "The cat sat on the mat" ∩
        filteredWords fallbackStopWords "A cat ran to the mat").card : ℚ) /
      ((filteredWords fallbackStopWords "The cat sat on the mat" ∪
        filteredWords fallbackStopWords "A cat ran to the mat").card : ℚ) := by
  have h := sentence_similarity_jaccard_bounds fallbackStopWords
    "The cat sat on the mat" "A cat ran to the mat"
  exact ⟨h.1, h.2.1, h.2.2.2 (by with_unfolding_all decide) (by with_unfolding_all decide)⟩

/-- C7: `_sentence_similarity` is symmetric in its two sentence
arguments. -/
theorem sentence_similarity_symm (stop : List String) (a b : String) :
    sentenceSimilarity stop a b = sentenceSimilarity stop b a :=
  sentenceSimilarity_comm stop a b

/-- C8: `_create_similarity_matrix` returns a square matrix that is
symmetric, non-negative and zero on the diagonal; when the sentence count
exceeds 100, every entry at band distance greater than 50 is 0. -/
theorem similarity_matrix_invariants (stop : List String) (ss : List String)
    (i j : Nat) (hi : i < ss.length) (hj : j < ss.length) :
    (createSimilarityMatrix stop ss).length = ss.length ∧
    (∀ row ∈ createSimilarityMatrix stop ss, row.length = ss.length) ∧
    matrixEntry (createSimilarityMatrix stop ss) i j =
      matrixEntry (createSimilarityMatrix stop ss) j i ∧
    0 ≤ matrixEntry (createSimilarityMatrix stop ss) i j ∧
    (i = j → matrixEntry (createSimilarityMatrix stop ss) i j = 0) ∧
    (100 < ss.length → 50 < Nat.dist i j →
      matrixEntry (createSimilarityMatrix stop ss) i j = 0) := by
  refine ⟨?_, ?_, ?_, ?_, ?_, ?_⟩
  · unfold createSimilarityMatrix
    split <;> rw [List.length_map, List.length_range]
  · intro row hrow
    unfold createSimilarityMatrix at hrow
    split at hrow
    · obtain ⟨i0, hi0, hrw⟩ := List.mem_map.mp hrow
      rw [← hrw, List.length_map, List.length_range]
    · obtain ⟨i0, hi0, hrw⟩ := List.mem_map.mp hrow
      rw [← hrw, List.length_map, List.length_range]
  · by_cases hle : ss.length ≤ 100
    · rw [matrixEntry_small stop ss hle i j hi hj, matrixEntry_small stop ss hle j i hj hi]
      split_ifs <;> first | rfl | omega
    · rw [matrixEntry_large stop ss hle i j hi hj, matrixEntry_large stop ss hle j i hj hi]
      by_cases hc : i ≠ j ∧ i - 50 ≤ j ∧ j < min ss.length (i + 51)
      · rw [if_pos hc,
          if_pos (show j ≠ i ∧ j - 50 ≤ i ∧ i < min ss.length (j + 51) by omega)]
        exact sentenceSimilarity_comm stop _ _
      · rw [if_neg hc,
          if_neg (show ¬(j ≠ i ∧ j - 50 ≤ i ∧ i < min ss.length (j + 51)) by omega)]
  · by_cases hle : ss.length ≤ 100
    · rw [matrixEntry_small stop ss hle i j hi hj]
      split_ifs <;> first | exact sentenceSimilarity_nonneg stop _ _ | exact le_refl 0
    · rw [matrixEntry_large stop ss hle i j hi hj]
      split_ifs <;> first | exact sentenceSimilarity_nonneg stop _ _ | exact le_refl 0
  · intro heq
    subst heq
    by_cases hle : ss.length ≤ 100
    · rw [matrixEntry_small stop ss hle i i hi hi]
      simp
    · rw [matrixEntry_large stop ss hle i i hi hi]
      simp
  · intro h100 hdist
    have hle : ¬ ss.length ≤ 100 := by omega
    rw [matrixEntry_large stop ss hle i j hi hj]
    have hnc : ¬(i ≠ j ∧ i - 50 ≤ j ∧ j < min ss.length (i + 51)) := by
      simp only [Nat.dist] at hdist
      omega
    rw [if_neg hnc]

/-- Witness for C8: a 101-sentence list (banded regime); symmetry,
non-negativity and the band-zero property at entry (0, 60). -/
theorem similarity_matrix_invariants_witness :
    matrixEntry (createSimilarityMatrix fallbackStopWords ss101) 0 60 =
      matrixEntry (createSimilarityMatrix fallbackStopWords ss101) 60 0 ∧
    0 ≤ matrixEntry (createSimilarityMatrix fallbackStopWords ss101) 0 60 ∧
    matrixEntry (createSimilarityMatrix fallbackStopWords ss101) 0 60 = 0 := by
  have h := similarity_matrix_invariants fallbackStopWords ss101 0 60
    (by decide) (by decide)
  exact ⟨h.2.2.1, h.2.2.2.1, h.2.2.2.2.2 (by decide) (by decide)⟩

/-- Summary.py line 122 passes `processed_text if len(text) > 10000 else
text` to the tokenizer; since `processed_text` IS `text` in the
`> 10000` branch (line 117) and the original `text` is passed otherwise,
the tokenized text equals the original input for every input, and the
computed preprocessed text is discarded. -/
theorem tokenizedText_eq_self (t : String) : tokenizedText t = t := by
  show (if 10000 < t.length then (if 10000 < t.length then t else preprocessText t)
    else t) = t
  by_cases h : 10000 < t.length
  · rw [if_pos h, if_pos h]
  · rw [if_neg h]

/-- C2 (code bug): the claim (and the comment on summary.py line 115,
"Skip preprocessing for longer texts") says the preprocessed text is
segmented for inputs of at most 10000 characters; in the code the
conditional on line 122 is inverted, so the ORIGINAL unprocessed text is
tokenized for every input (`tokenizedText_eq_self`) and `processed_text`
is dead.  The concrete input below is 124 characters long (well under
10000) and differs from its preprocessed form, yet is tokenized
unprocessed. -/
theorem tokenize_skips_preprocessing :
    tokenizedText textMixed = textMixed ∧
    textMixed.length ≤ 10000 ∧
    preprocessText textMixed ≠ textMixed :=
  ⟨tokenizedText_eq_self textMixed, by decide, by decide⟩

/-- C3 (amended): on every full-pipeline run with the default parameters
(ratio 0.3, min 3, max 7), the number of selected sentences equals
`min(max(3, int(len * 0.3)), 7)` where `len` is the possibly downsampled
sentence count and `int` truncates toward zero — not `round`, as the
original claim states (refuted by
`generate_summary_selection_count_cex`). -/
theorem generate_summary_selection_count (tok : String → Except Unit (List String))
    (pagerank : List (List ℚ) → Except Unit (Nat → ℚ)) (g : GenState) (text : String)
    (h : (generateSummaryT tok pagerank g text (3/10) 3 7).path = SummaryPath.summarized) :
    (generateSummaryT tok pagerank g text (3/10) 3 7).selected.length =
      numSentences (generateSummaryT tok pagerank g text (3/10) 3 7).sampled.length
        (3/10) 3 7 := by
  obtain ⟨hmiss, hlong, s, sam, sel, hcore, heq⟩ :=
    generateSummaryT_summarized_inv tok pagerank g text (3/10) 3 7 h
  obtain ⟨ss0, scores, htok, h3, hsam, hpr, hsel, hs⟩ :=
    generateSummaryCore_ok_some tok pagerank g.stop_words text (3/10) 3 7 s sam sel hcore
  rw [heq]
  show sel.length = numSentences sam.length (3/10) 3 7
  subst hsam
  have hfacts := selection_facts (sampleSentences ss0) scores
    (numSentences (sampleSentences ss0).length (3/10) 3 7) sel hsel
  have hgt : 3 < (sampleSentences ss0).length := sampleSentences_length_gt ss0 (by omega)
  have hle := numSentences_le_defaults (sampleSentences ss0).length hgt
  rw [hfacts.1, min_eq_left hle]

/-- Witness for the amended C3 at a concrete 12-sentence input: 12
sentences, int(12*0.3) = 3 selected. -/
theorem generate_summary_selection_count_witness :
    (generateSummaryT tokSimple prZero g0 text12 (3/10) 3 7).selected.length =
      numSentences (generateSummaryT tokSimple prZero g0 text12 (3/10) 3 7).sampled.length
        (3/10) 3 7 :=
  generate_summary_selection_count tokSimple prZero g0 text12 (by with_unfolding_all decide)

/-- C3 counterexample: on a 12-sentence input (no downsampling) the code
selects min(max(3, int(12 * 0.3)), 7) = min(max(3, 3), 7) = 3 sentences,
whereas the claimed formula with rounding gives
min(max(3, round(3.6)), 7) = 4. -/
theorem generate_summary_selection_count_cex :
    (generateSummaryT tokSimple prZero g0 text12 (3/10) 3 7).path = SummaryPath.summarized ∧
    (generateSummaryT tokSimple prZero g0 text12 (3/10) 3 7).sampled.length = 12 ∧
    (generateSummaryT tokSimple prZero g0 text12 (3/10) 3 7).selected.length = 3 ∧
    min (max (3:ℤ) (round ((12:ℚ) * (3/10)))) 7 = 4 := by
  exact ⟨by with_unfolding_all decide, by with_unfolding_all decide,
    by with_unfolding_all decide, by with_unfolding_all decide⟩

/-- C4: on every full-pipeline run (more than 3 sentences, no exception),
the output is the selected sentences joined with single spaces, the
selected sentence positions strictly increase (document order, never rank
order), each selected string is the sentence stored at its position in
the (possibly downsampled) sentence list, and that list is an
order-preserving sublist of the tokenizer's output — so the summary reads
in the order of the tokenized source document. -/
theorem generate_summary_document_order (tok : String → Except Unit (List String))
    (pagerank : List (List ℚ) → Except Unit (Nat → ℚ)) (g : GenState) (text : String)
    (r : ℚ) (mn mx : Nat)
    (h : (generateSummaryT tok pagerank g text r mn mx).path = SummaryPath.summarized) :
    List.Pairwise posStrict
      ((generateSummaryT tok pagerank g text r mn mx).selected.map (fun x => x.2.1)) ∧
    (generateSummaryT tok pagerank g text r mn mx).out =
      joinSp ((generateSummaryT tok pagerank g text r mn mx).selected.map (fun x => x.2.2)) ∧
    (∀ x ∈ (generateSummaryT tok pagerank g text r mn mx).selected,
      (generateSummaryT tok pagerank g text r mn mx).sampled.getD x.2.1 "" = x.2.2) ∧
    ∃ ss0, tok (tokenizedText text) = Except.ok ss0 ∧
      ((generateSummaryT tok pagerank g text r mn mx).sampled).Sublist ss0 := by
  obtain ⟨hmiss, hlong, s, sam, sel, hcore, heq⟩ :=
    generateSummaryT_summarized_inv tok pagerank g text r mn mx h
  obtain ⟨ss0, scores, htok, h3, hsam, hpr, hsel, hs⟩ :=
    generateSummaryCore_ok_some tok pagerank g.stop_words text r mn mx s sam sel hcore
  rw [heq]
  subst hsam
  have hfacts := selection_facts (sampleSentences ss0) scores
    (numSentences (sampleSentences ss0).length r mn mx) sel hsel
  exact ⟨hfacts.2.1, hs, hfacts.2.2, ss0, htok, sampleSentences_sublist ss0⟩

/-- Witness for C4 at a concrete 5-sentence input. -/
theorem generate_summary_document_order_witness :
    List.Pairwise posStrict
      ((generateSummaryT tokSimple prZero g0 text5 (3/10) 3 7).selected.map
        (fun x => x.2.1)) ∧
    (generateSummaryT tokSimple prZero g0 text5 (3/10) 3 7).out =
      joinSp ((generateSummaryT tokSimple prZero g0 text5 (3/10) 3 7).selected.map
        (fun x => x.2.2)) := by
  have h := generate_summary_document_order tokSimple prZero g0 text5 (3/10) 3 7
    (by with_unfolding_all decide)
  exact ⟨h.1, h.2.1⟩

/-- C1: `generate_summary` never propagates an exception.  The result
type of the embedding is a plain string for every oracle behaviour, and
whenever the pipeline raises (tokenizer or PageRank, modelled by the
`Except.error` of `generateSummaryCore`), the returned string is exactly
the first 3 sentences of the terminal-punctuation split of the input,
joined with single spaces, with the generator state unchanged. -/
theorem generate_summary_error_fallback (tok : String → Except Unit (List String))
    (pagerank : List (List ℚ) → Except Unit (Nat → ℚ)) (g : GenState) (text : String)
    (r : ℚ) (mn mx : Nat)
    (hmiss : g.cache.lookup (keyOf text) = none)
    (hlong : ¬(text = "" ∨ text.length < 100))
    (herr : generateSummaryCore tok pagerank g.stop_words text r mn mx = Except.error ()) :
    (generateSummaryT tok pagerank g text r mn mx).out =
      joinSp ((simpleSplit text).take 3) ∧
    (generateSummaryT tok pagerank g text r mn mx).path = SummaryPath.fallback ∧
    (generateSummaryT tok pagerank g text r mn mx).state = g := by
  rw [generateSummaryT_fallback tok pagerank g text r mn mx hmiss hlong herr]
  refine ⟨?_, rfl, rfl⟩
  show fallbackSummary text = joinSp ((simpleSplit text).take 3)
  unfold fallbackSummary
  show joinSp ((simpleSplit text).take (min 3 (simpleSplit text).length)) =
    joinSp ((simpleSplit text).take 3)
  rw [take_min_three]

/-- Witness for C1: a raising tokenizer on a concrete 123-character
input; the result is the first 3 simple-split sentences. -/
theorem generate_summary_error_fallback_witness :
    (generateSummaryT tokRaise prZero g0 text5 (3/10) 3 7).out =
      joinSp ((simpleSplit text5).take 3) ∧
    (generateSummaryT tokRaise prZero g0 text5 (3/10) 3 7).path = SummaryPath.fallback := by
  have h := generate_summary_error_fallback tokRaise prZero g0 text5 (3/10) 3 7 rfl
    (by decide) (by with_unfolding_all rfl)
  exact ⟨h.1, h.2.1⟩

/-- C5 (amended): provided the first 1000 characters of the input are not
already a key in the cache (for instance on a fresh generator),
`generate_summary` returns its input unchanged on every degenerate input:
when the input is empty or shorter than 100 characters, and when
tokenization succeeds with 3 or fewer sentences.  The cache-miss proviso
is necessary: `generate_summary_degenerate_cache_cex` exhibits a
degenerate input answered from the cache instead. -/
theorem generate_summary_degenerate_identity (tok : String → Except Unit (List String))
    (pagerank : List (List ℚ) → Except Unit (Nat → ℚ)) (g : GenState) (text : String)
    (r : ℚ) (mn mx : Nat)
    (hmiss : g.cache.lookup (keyOf text) = none) :
    (text = "" ∨ text.length < 100 →
      (generateSummaryT tok pagerank g text r mn mx).out = text) ∧
    (∀ ss0, tok (tokenizedText text) = Except.ok ss0 → ss0.length ≤ 3 →
      (generateSummaryT tok pagerank g text r mn mx).out = text) := by
  constructor
  · intro hshort
    rw [generateSummaryT_short tok pagerank g text r mn mx hmiss hshort]
  · intro ss0 htok h3
    by_cases hshort : text = "" ∨ text.length < 100
    · rw [generateSummaryT_short tok pagerank g text r mn mx hmiss hshort]
    · have hcore : generateSummaryCore tok pagerank g.stop_words text r mn mx =
          Except.ok none := by
        unfold generateSummaryCore
        simp only [htok, if_pos h3]
      rw [generateSummaryT_few tok pagerank g text r mn mx hmiss hshort hcore]

/-- Witness for the amended C5: a 2-character input and a 120-character
single-sentence input, both returned unchanged on a fresh generator. -/
theorem generate_summary_degenerate_identity_witness :
    (generateSummaryT tokSimple prZero g0 "hi" (3/10) 3 7).out = "hi" ∧
    (generateSummaryT tokSimple prZero g0 textNoPunct (3/10) 3 7).out = textNoPunct := by
  constructor
  · exact (generate_summary_degenerate_identity tokSimple prZero g0 "hi" (3/10) 3 7
      rfl).1 (by decide)
  · exact (generate_summary_degenerate_identity tokSimple prZero g0 textNoPunct (3/10) 3 7
      rfl).2 (simpleSplit textNoPunct) rfl (by decide)

/-- C5 counterexample: `tA` is summarized and cached under its
first-1000-character key; `tB` shares that key, is 1100 characters long
and tokenizes (via the repository's own fallback split) to just 3
sentences — a degenerate input — yet the call returns the cached summary
of `tA`, not `tB` unchanged, because the cache lookup precedes every
degenerate-input check. -/
theorem generate_summary_degenerate_cache_cex :
    tokSimple (tokenizedText tB) = Except.ok (simpleSplit tB) ∧
    (simpleSplit tB).length ≤ 3 ∧
    ¬(tB = "" ∨ tB.length < 100) ∧
    (generateSummaryT tokSimple prZero g0 tA (3/10) 3 7).path = SummaryPath.summarized ∧
    (generateSummaryT tokSimple prZero
      (generateSummaryT tokSimple prZero g0 tA (3/10) 3 7).state tB (3/10) 3 7).out ≠ tB := by
  exact ⟨by with_unfolding_all rfl, by with_unfolding_all decide, by decide,
    by with_unfolding_all decide, by with_unfolding_all decide⟩

/-- C9 (amended): calling `generate_summary` twice with identical input on
the same generator returns byte-identical output both times (the embedding
is deterministic and the cache is only extended); and whenever the FIRST
call completed the full pipeline and stored its summary, the second call
returns the cached result immediately through the cache-hit path,
bypassing the pipeline.  The original claim's unconditional "the second
call does not recompute" is refuted by
`generate_summary_no_cache_recompute_cex`: inputs that never reach the
cache store are recomputed by every call. -/
theorem generate_summary_cache_idempotent (tok : String → Except Unit (List String))
    (pagerank : List (List ℚ) → Except Unit (Nat → ℚ)) (g : GenState) (text : String)
    (r : ℚ) (mn mx : Nat) :
    (generateSummaryT tok pagerank
        (generateSummaryT tok pagerank g text r mn mx).state text r mn mx).out =
      (generateSummaryT tok pagerank g text r mn mx).out ∧
    ((generateSummaryT tok pagerank g text r mn mx).path = SummaryPath.summarized →
      (generateSummaryT tok pagerank
        (generateSummaryT tok pagerank g text r mn mx).state text r mn mx).path =
        SummaryPath.cacheHit) := by
  cases hl : g.cache.lookup (keyOf text) with
  | some s =>
    have e1 := generateSummaryT_cacheHit tok pagerank g text r mn mx s hl
    simp [e1]
  | none =>
    by_cases hshort : text = "" ∨ text.length < 100
    · have e1 := generateSummaryT_short tok pagerank g text r mn mx hl hshort
      simp [e1]
    · cases hcore : generateSummaryCore tok pagerank g.stop_words text r mn mx with
      | error e =>
        cases e
        have e1 := generateSummaryT_fallback tok pagerank g text r mn mx hl hshort hcore
        simp [e1]
      | ok o =>
        cases o with
        | none =>
          have e1 := generateSummaryT_few tok pagerank g text r mn mx hl hshort hcore
          simp [e1]
        | some trip =>
          obtain ⟨s, sam, sel⟩ := trip
          have e1 := generateSummaryT_summarized tok pagerank g text r mn mx s sam sel
            hl hshort hcore
          have hl2 : ((⟨g.stop_words, (keyOf text, s) :: g.cache⟩ : GenState)).cache.lookup
              (keyOf text) = some s := by
            simp [List.lookup]
          have e2 := generateSummaryT_cacheHit tok pagerank
            ⟨g.stop_words, (keyOf text, s) :: g.cache⟩ text r mn mx s hl2
          simp [e1, e2]

/-- Witness for the amended C9: `text5` completes the pipeline on the
first call; the second call hits the cache and returns the same string. -/
theorem generate_summary_cache_idempotent_witness :
    (generateSummaryT tokSimple prZero
        (generateSummaryT tokSimple prZero g0 text5 (3/10) 3 7).state text5 (3/10) 3 7).out =
      (generateSummaryT tokSimple prZero g0 text5 (3/10) 3 7).out ∧
    (generateSummaryT tokSimple prZero
        (generateSummaryT tokSimple prZero g0 text5 (3/10) 3 7).state text5 (3/10) 3 7).path =
      SummaryPath.cacheHit := by
  have h := generate_summary_cache_idempotent tokSimple prZero g0 text5 (3/10) 3 7
  exact ⟨h.1, h.2 (by with_unfolding_all decide)⟩

/-- C9 counterexample: a 120-character single-sentence input takes the
few-sentences return on summary.py line 126, which does NOT store
anything in the cache; the second identical call re-enters the pipeline
(tokenizing again, path `fewSentences` once more) instead of returning a
cached result — the cache is still empty after the first call. -/
theorem generate_summary_no_cache_recompute_cex :
    (generateSummaryT tokSimple prZero g0 textNoPunct (3/10) 3 7).path =
      SummaryPath.fewSentences ∧
    (generateSummaryT tokSimple prZero g0 textNoPunct (3/10) 3 7).state.cache = [] ∧
    (generateSummaryT tokSimple prZero
      (generateSummaryT tokSimple prZero g0 textNoPunct (3/10) 3 7).state
      textNoPunct (3/10) 3 7).path = SummaryPath.fewSentences := by
  exact ⟨by decide, by decide, by decide⟩

/-- C10: the cached-path output depends only on the first 1000 characters
of the input.  If a call on `t1` completed the pipeline and cached its
summary, then a subsequent call on ANY `t2` with the same first 1000
characters (with any ratio/min/max parameters) returns that cached
summary of `t1` through the cache-hit path, regardless of how the texts
differ beyond the first 1000 characters. -/
theorem generate_summary_cache_first1000 (tok : String → Except Unit (List String))
    (pagerank : List (List ℚ) → Except Unit (Nat → ℚ)) (g : GenState) (t1 t2 : String)
    (r : ℚ) (mn mx : Nat) (r2 : ℚ) (mn2 mx2 : Nat)
    (hpre : keyOf t1 = keyOf t2)
    (h : (generateSummaryT tok pagerank g t1 r mn mx).path = SummaryPath.summarized) :
    (generateSummaryT tok pagerank
        (generateSummaryT tok pagerank g t1 r mn mx).state t2 r2 mn2 mx2).out =
      (generateSummaryT tok pagerank g t1 r mn mx).out ∧
    (generateSummaryT tok pagerank
        (generateSummaryT tok pagerank g t1 r mn mx).state t2 r2 mn2 mx2).path =
      SummaryPath.cacheHit := by
  obtain ⟨hmiss, hlong, s, sam, sel, hcore, heq⟩ :=
    generateSummaryT_summarized_inv tok pagerank g t1 r mn mx h
  have hl2 : ((⟨g.stop_words, (keyOf t1, s) :: g.cache⟩ : GenState)).cache.lookup
      (keyOf t2) = some s := by
    rw [← hpre]
    simp [List.lookup]
  have e2 := generateSummaryT_cacheHit tok pagerank
    ⟨g.stop_words, (keyOf t1, s) :: g.cache⟩ t2 r2 mn2 mx2 s hl2
  simp [heq, e2]

/-- Witness for C10: `tA` and `tB` are distinct texts sharing their first
1000 characters; after summarizing `tA`, the call on `tB` returns `tA`'s
cached summary. -/
theorem generate_summary_cache_first1000_witness :
    (generateSummaryT tokSimple prZero
        (generateSummaryT tokSimple prZero g0 tA (3/10) 3 7).state tB (3/10) 3 7).out =
      (generateSummaryT tokSimple prZero g0 tA (3/10) 3 7).out ∧
    (generateSummaryT tokSimple prZero
        (generateSummaryT tokSimple prZero g0 tA (3/10) 3 7).state tB (3/10) 3 7).path =
      SummaryPath.cacheHit :=
  generate_summary_cache_first1000 tokSimple prZero g0 tA tB (3/10) 3 7 (3/10) 3 7
    (by decide) (by with_unfolding_all decide)
